import Mathlib

/-!
Verification development for the Telegram "last frame" bot (`src/main.py`).

The bot stores per-user output-format and output-size preferences, downloads
an inbound video / video-note / animation to a transient temp file, invokes
ffmpeg to extract the final frame (with one of three size transforms), replies
with the image, and deletes the transient files in a `finally` block.  The
module below is a shallow embedding of that code: the pure parts (preference
normalization, ffmpeg command construction, error classification) are direct
translations; the effectful parts (subprocess, network, filesystem) are driven
by explicit oracle records, and the handlers return the resulting state
together with a trace of observable effects.
-/

namespace TG

/-- Python `str.lower()`, as a character-wise map (the strings the bot
handles are ASCII, where this agrees with Python). -/
def py_lower (s : String) : String := String.mk (s.data.map Char.toLower)

/-- Python `str.upper()`, as a character-wise map. -/
def py_upper (s : String) : String := String.mk (s.data.map Char.toUpper)

/-- Python `dict.get(k, default)` over an association list keyed by user id. -/
def dictGet (m : List (Int × String)) (k : Int) (d : String) : String :=
  match m.find? (fun p => p.1 == k) with
  | some p => p.2
  | none => d

/-- Python `dict.get(k)` (returning `None` when absent). -/
def dictGetOpt (m : List (Int × String)) (k : Int) : Option String :=
  (m.find? (fun p => p.1 == k)).map Prod.snd

/-- Python `m[k] = v`: the new binding shadows any older one. -/
def dictSet (m : List (Int × String)) (k : Int) (v : String) : List (Int × String) :=
  (k, v) :: m

/-- `get_user_format` (main.py:53): stored format or the default `"png"`. -/
def get_user_format (prefs : List (Int × String)) (user_id : Int) : String :=
  dictGet prefs user_id "png"

/-- `set_user_format` (main.py:58): lower-case, alias `jpeg` to `jpg`, fall
back to `png` for anything outside the enumerated set, then store. -/
def set_user_format (prefs : List (Int × String)) (user_id : Int) (fmt : String) :
    List (Int × String) :=
  let fmt := py_lower fmt
  let fmt := if fmt == "jpeg" then "jpg" else fmt
  let fmt := if fmt == "png" || fmt == "jpg" || fmt == "webp" then fmt else "png"
  dictSet prefs user_id fmt

/-- `get_user_size` (main.py:68): stored size or the default `"orig"`. -/
def get_user_size (prefs : List (Int × String)) (user_id : Int) : String :=
  dictGet prefs user_id "orig"

/-- `set_user_size` (main.py:73): lower-case, fall back to `orig` for anything
outside the enumerated set, then store. -/
def set_user_size (prefs : List (Int × String)) (user_id : Int) (size : String) :
    List (Int × String) :=
  let size := py_lower size
  let size := if size == "orig" || size == "1024" || size == "1024sq" then size else "orig"
  dictSet prefs user_id size

/-- `describe_size` (main.py:80). -/
def describe_size (size_mode : String) : String :=
  let size_mode := py_lower size_mode
  if size_mode == "1024" then "большая сторона 1024 px"
  else if size_mode == "1024sq" then "квадрат 1024×1024 (кроп по центру)"
  else "оригинальное разрешение"

/-! ### The ffmpeg scale expressions

The `size_mode = "1024"` branch of `extract_last_frame` emits the filter
string `scale='if(gt(iw,ih),1024,-2)':'if(gt(ih,iw),1024,-2)'`.  We embed the
two arithmetic expressions as a tiny AST together with a renderer; a theorem
below checks the rendering reproduces the source string character for
character, so the AST is tied to the source literal. -/

/-- Expression AST for the ffmpeg `scale` width/height expressions used here. -/
inductive SExpr where
  | iw : SExpr
  | ih : SExpr
  | lit : Int → SExpr
  | gtE : SExpr → SExpr → SExpr
  | ifE : SExpr → SExpr → SExpr → SExpr
  deriving DecidableEq

/-- Evaluation of a scale expression at concrete input dimensions, per the
ffmpeg expression semantics: `gt` yields 1/0, `if` tests non-zero. -/
def evalS : SExpr → Nat → Nat → Int
  | .iw, w, _ => w
  | .ih, _, h => h
  | .lit n, _, _ => n
  | .gtE a b, w, h => if evalS a w h > evalS b w h then 1 else 0
  | .ifE c a b, w, h => if evalS c w h ≠ 0 then evalS a w h else evalS b w h

/-- Rendering of a scale expression in ffmpeg's concrete syntax. -/
def renderS : SExpr → String
  | .iw => "iw"
  | .ih => "ih"
  | .lit n => toString n
  | .gtE a b => "gt(" ++ renderS a ++ "," ++ renderS b ++ ")"
  | .ifE c a b => "if(" ++ renderS c ++ "," ++ renderS a ++ "," ++ renderS b ++ ")"

/-- Width expression of the `"1024"` filter (main.py:168). -/
def w1024_expr : SExpr := .ifE (.gtE .iw .ih) (.lit 1024) (.lit (-2))

/-- Height expression of the `"1024"` filter (main.py:168). -/
def h1024_expr : SExpr := .ifE (.gtE .ih .iw) (.lit 1024) (.lit (-2))

/-- `scale_filter` (main.py:168), assembled from the rendered expressions. -/
def scale_filter : String :=
  "scale='" ++ renderS w1024_expr ++ "':'" ++ renderS h1024_expr ++ "'"

/-- `scale_crop_filter` (main.py:171): cover-fit scale then center crop. -/
def scale_crop_filter : String :=
  "scale=1024:1024:force_original_aspect_ratio=increase," ++ "crop=1024:1024"

/-- Modelled from the spec: `av_rescale(a, b, c)` of the external transcoding
tool rounds `a*b/c` to the nearest integer; here specialised to
`nearRound (a*b) c` on naturals (half rounds up). -/
def nearRound (a b : Nat) : Nat := (2 * a + b) / (2 * b)

/-- Modelled from the spec: the external transcoding tool's resolution of a
requested `scale=w:h` pair against input dimensions `iw × ih`.  A negative
value `-n` asks for a proportional dimension rounded to a multiple of `n`;
if both requests are negative the input size is used unchanged. -/
def resolve_scale_dims (iw ih : Nat) (w h : Int) : Nat × Nat :=
  let factor_w : Nat := if w < -1 then (-w).toNat else 1
  let factor_h : Nat := if h < -1 then (-h).toNat else 1
  let wh : Int × Int := if w < 0 ∧ h < 0 then ((iw : Int), (ih : Int)) else (w, h)
  let w' : Int :=
    if wh.1 < 0 then ((nearRound (wh.2.toNat * iw) (ih * factor_w) * factor_w : Nat) : Int)
    else wh.1
  let h' : Int :=
    if wh.2 < 0 then ((nearRound (w'.toNat * ih) (iw * factor_h) * factor_h : Nat) : Int)
    else wh.2
  (w'.toNat, h'.toNat)

/-- Output dimensions requested by the `"1024"` size mode: the two source
expressions evaluated at the input dimensions, then resolved by the tool. -/
def scale_1024_dims (iw ih : Nat) : Nat × Nat :=
  resolve_scale_dims iw ih (evalS w1024_expr iw ih) (evalS h1024_expr iw ih)

/-- Modelled from the spec: the tool's `force_original_aspect_ratio=increase`
cover-fit for a 1024×1024 target: each dimension is the larger of 1024 and the
aspect-preserving rescale of the other. -/
def cover_scale_dims (iw ih : Nat) : Nat × Nat :=
  (max (nearRound (1024 * iw) ih) 1024, max (nearRound (1024 * ih) iw) 1024)

/-- Modelled from the spec: the tool's `crop=cw:ch` with default (centered)
offsets; it only succeeds when the crop box fits inside the frame. -/
def crop_dims (w h cw ch : Nat) : Option ((Nat × Nat) × (Nat × Nat)) :=
  if cw ≤ w ∧ ch ≤ h then some ((cw, ch), ((w - cw) / 2, (h - ch) / 2)) else none

/-- Output of the `"1024sq"` filter chain: cover-fit scale, then the centered
1024×1024 crop.  `none` would mean the crop box does not fit. -/
def scale_1024sq_dims (iw ih : Nat) : Option ((Nat × Nat) × (Nat × Nat)) :=
  crop_dims (cover_scale_dims iw ih).1 (cover_scale_dims iw ih).2 1024 1024

/-! ### Frame extraction -/

/-- Format normalization at the top of `extract_last_frame` (main.py:150-154):
lower-case, fall back to `png` outside the accepted set, alias `jpeg`→`jpg`. -/
def normalize_format (output_format : String) : String :=
  let f := py_lower output_format
  let f := if f == "png" || f == "jpg" || f == "jpeg" || f == "webp" then f else "png"
  if f == "jpeg" then "jpg" else f

/-- Output path `tmp_dir / f"last_frame_{uuid4().hex}.{output_format}"`
(main.py:157), with the temp directory fixed to `/tmp`. -/
def frame_output_path (frame_uuid fmt : String) : String :=
  "/tmp/last_frame_" ++ frame_uuid ++ "." ++ fmt

/-- Temp path `tmp_dir / f"input_{uuid4().hex}.mp4"` (main.py:212, 236). -/
def input_tmp_path (vid_uuid : String) : String :=
  "/tmp/input_" ++ vid_uuid ++ ".mp4"

/-- Default of the `timeout_sec` parameter of `extract_last_frame`
(main.py:138). -/
def extract_timeout_default : Nat := 60

/-- The ffmpeg argument list built by `extract_last_frame` (main.py:159-180).
`size_mode` is expected already lower-cased (the caller lowers it, line 166). -/
def extract_cmd (input_path output_path size_mode : String) : List String :=
  ["ffmpeg", "-y", "-sseof", "-0.1", "-i", input_path]
    ++ (if size_mode == "1024" then ["-vf", scale_filter]
        else if size_mode == "1024sq" then ["-vf", scale_crop_filter]
        else [])
    ++ ["-vframes", "1", output_path]

/-! ### Python's UTF-8 decoding (model of `bytes.decode`)

`extract_last_frame` renders ffmpeg's stderr with
`result.stderr.decode(errors='ignore')`.  We model Python's UTF-8 codec over
byte lists: strict UTF-8 (overlongs, surrogates and values above U+10FFFF are
invalid), with the error handler either dropping the offending maximal subpart
(`errors='ignore'`) or emitting U+FFFD for it (`errors='replace'`).  Neither
handler can raise. -/

/-- Is `b` a UTF-8 continuation byte? -/
def isCont (b : Nat) : Bool := 0x80 ≤ b && b ≤ 0xBF

/-- One decoding step: the decoded character (or `none` for an invalid maximal
subpart) and the number of bytes consumed (always at least 1 on nonempty
input). -/
def utf8Step : List Nat → Option Char × Nat
  | [] => (none, 1)
  | b :: rest =>
    if b ≤ 0x7F then (some (Char.ofNat b), 1)
    else if 0xC2 ≤ b && b ≤ 0xDF then
      match rest with
      | c1 :: _ =>
        if isCont c1 then (some (Char.ofNat ((b - 0xC0) * 64 + (c1 - 0x80))), 2)
        else (none, 1)
      | [] => (none, 1)
    else if 0xE0 ≤ b && b ≤ 0xEF then
      let lo1 : Nat := if b == 0xE0 then 0xA0 else 0x80
      let hi1 : Nat := if b == 0xED then 0x9F else 0xBF
      match rest with
      | c1 :: rest1 =>
        if lo1 ≤ c1 && c1 ≤ hi1 then
          match rest1 with
          | c2 :: _ =>
            if isCont c2 then
              (some (Char.ofNat ((b - 0xE0) * 4096 + (c1 - 0x80) * 64 + (c2 - 0x80))), 3)
            else (none, 2)
          | [] => (none, 2)
        else (none, 1)
      | [] => (none, 1)
    else if 0xF0 ≤ b && b ≤ 0xF4 then
      let lo1 : Nat := if b == 0xF0 then 0x90 else 0x80
      let hi1 : Nat := if b == 0xF4 then 0x8F else 0xBF
      match rest with
      | c1 :: rest1 =>
        if lo1 ≤ c1 && c1 ≤ hi1 then
          match rest1 with
          | c2 :: rest2 =>
            if isCont c2 then
              match rest2 with
              | c3 :: _ =>
                if isCont c3 then
                  (some (Char.ofNat ((b - 0xF0) * 262144 + (c1 - 0x80) * 4096
                    + (c2 - 0x80) * 64 + (c3 - 0x80))), 4)
                else (none, 3)
              | [] => (none, 3)
            else (none, 2)
          | [] => (none, 2)
        else (none, 1)
      | [] => (none, 1)
    else (none, 1)

/-- What the error handler emits for one invalid maximal subpart. -/
def errOut (repl : Bool) (k : List Char) : List Char :=
  if repl then Char.ofNat 0xFFFD :: k else k

/-- Fuel-driven decoding loop; `fuel = length` always suffices because each
step consumes at least one byte. -/
def utf8DecodeFuel (repl : Bool) : Nat → List Nat → List Char
  | _, [] => []
  | 0, _ :: _ => []
  | fuel + 1, b :: rest =>
    match utf8Step (b :: rest) with
    | (some c, n) => c :: utf8DecodeFuel repl fuel ((b :: rest).drop (max n 1))
    | (none, n) => errOut repl (utf8DecodeFuel repl fuel ((b :: rest).drop (max n 1)))

/-- `bytes.decode(errors='ignore')`: invalid subparts are dropped. -/
def python_decode_ignore (bs : List Nat) : String :=
  String.mk (utf8DecodeFuel false bs.length bs)

/-- `bytes.decode(errors='replace')` (what the spec sentence describes):
invalid subparts become U+FFFD. -/
def python_decode_replace (bs : List Nat) : String :=
  String.mk (utf8DecodeFuel true bs.length bs)

/-! ### The subprocess oracle and `extract_last_frame` -/

/-- Observable outcome of the one `subprocess.run` call: either the timeout
expired (the kill may or may not have left a partial output file), or the tool
finished with an exit code, captured stderr bytes, and a flag telling whether
the output file exists afterwards. -/
inductive RunResult where
  | timedOut : Bool → RunResult
  | completed : Int → List Nat → Bool → RunResult
  deriving DecidableEq

/-- Whether the tool run left a file at the output path. -/
def RunResult.wrote : RunResult → Bool
  | .timedOut w => w
  | .completed _ _ w => w

/-- A run outcome that leaves no output file unless it fully succeeded
(exit code 0 together with an existing output file). -/
def RunResult.cleanFailure : RunResult → Prop
  | .timedOut w => w = false
  | .completed code _ w => w = true → code = 0

/-- The two failure kinds of `extract_last_frame`: the timeout branch
(main.py:189-190, carrying the timeout bound) and the nonzero-exit-or-missing-
output branch (main.py:192-195, carrying the exit code and the permissively
decoded stderr text). -/
inductive ExtractError where
  | timeoutErr : Nat → ExtractError
  | failedErr : Int → String → ExtractError
  deriving DecidableEq

/-- `extract_last_frame` (main.py:134-197) over the subprocess oracle:
normalize the format, build the unique output path, run the tool; classify
timeout, failure (nonzero exit code or missing output file) and success. -/
def extract_last_frame (run : RunResult) (frame_uuid : String) (input_path : String)
    (output_format : String) (size_mode : String) (timeout_sec : Nat) :
    Except ExtractError String :=
  let fmt := normalize_format output_format
  let output_path := frame_output_path frame_uuid fmt
  match run with
  | .timedOut _ => .error (.timeoutErr timeout_sec)
  | .completed code stderr wrote =>
    if code ≠ 0 ∨ wrote = false then
      .error (.failedErr code (python_decode_ignore stderr))
    else
      .ok output_path

/-! ### Messages, download, effects -/

/-- A platform media object; only its `file_id` matters here. -/
structure TgFile where
  file_id : String
  deriving DecidableEq

/-- The inbound message fields `handle_video` inspects. -/
structure Message where
  from_user_id : Int
  video : Option TgFile
  video_note : Option TgFile
  animation : Option TgFile
  deriving DecidableEq

/-- The `if message.video / elif message.video_note / elif message.animation`
selection (main.py:214-219 and 309-314). -/
def selected_media (m : Message) : Option TgFile :=
  match m.video with
  | some v => some v
  | none =>
    match m.video_note with
    | some v => some v
    | none => m.animation

/-- Failures of the media-transfer step: no recognized media kind in the
event (`ValueError`, main.py:221) or a transport failure in `bot.download`. -/
inductive MediaError where
  | noSupportedMedia : MediaError
  | downloadError : MediaError
  deriving DecidableEq

/-- Observable effects of one request, in order. -/
inductive Effect where
  | chatAction : Effect
  | adminForward : Effect
  | downloadMedia : String → String → Effect
  | runTool : List String → Effect
  | unlink : String → Bool → Effect
  | sendPhoto : String → String → Effect
  | sendText : String → Effect
  | cbAnswer : String → Bool → Effect
  deriving DecidableEq

/-- Filesystem-touching / media-transfer effects: downloading media to a local
file, running the extraction tool, deleting a file. -/
def Effect.isFsOp : Effect → Bool
  | .downloadMedia _ _ => true
  | .runTool _ => true
  | .unlink _ _ => true
  | _ => false

/-- Paths of photos actually sent in a trace. -/
def photoPaths (l : List Effect) : List String :=
  l.filterMap (fun e => match e with | .sendPhoto p _ => some p | _ => none)

/-- Process state: the three per-user maps (main.py:46-50) plus the set of
existing transient files, as a list of paths. -/
structure BotState where
  user_format_prefs : List (Int × String)
  user_size_prefs : List (Int × String)
  user_last_file_id : List (Int × String)
  disk : List String
  deriving DecidableEq

/-- `download_video_to_temp` (main.py:200-225) over the transfer oracle:
pick the media object, download it to the uniquely named `.mp4` temp path.
Returns the path, the new disk contents and the effect trace. -/
def download_video_to_temp (download_ok : Bool) (vid_uuid : String) (m : Message)
    (disk : List String) : Except MediaError (String × List String × List Effect) :=
  let tmp_path := input_tmp_path vid_uuid
  match selected_media m with
  | none => .error .noSupportedMedia
  | some f =>
    if download_ok then .ok (tmp_path, tmp_path :: disk, [.downloadMedia f.file_id tmp_path])
    else .error .downloadError

/-- `download_file_id_to_temp` (main.py:228-238): download by stored handle. -/
def download_file_id_to_temp (download_ok : Bool) (vid_uuid : String) (file_id : String)
    (disk : List String) : Except MediaError (String × List String × List Effect) :=
  let tmp_path := input_tmp_path vid_uuid
  if download_ok then .ok (tmp_path, tmp_path :: disk, [.downloadMedia file_id tmp_path])
  else .error .downloadError

/-- The exception caught at the orchestrator boundary of either handler. -/
inductive ReqError where
  | noMedia : ReqError
  | downloadFailed : ReqError
  | extract : ExtractError → ReqError
  | replyFailed : ReqError
  deriving DecidableEq

/-- Rendering of the extraction `RuntimeError` messages (main.py:190, 193). -/
def extract_err_str : ExtractError → String
  | .timeoutErr t => "ffmpeg timeout: Command timed out after " ++ toString t ++ " seconds"
  | .failedErr code txt => "Ошибка ffmpeg (код " ++ toString code ++ "): " ++ txt

/-- Rendering of `str(e)` for the caught exception. -/
def req_err_str : ReqError → String
  | .noMedia => "В сообщении нет поддерживаемого видео"
  | .downloadFailed => "download failed"
  | .extract e => extract_err_str e
  | .replyFailed => "reply failed"

/-- Failure reply of `handle_video` (main.py:341). -/
def video_fail_text (e : ReqError) : String :=
  "Не получилось обработать видео 😔\nОшибка: " ++ req_err_str e

/-- Success caption of `handle_video` (main.py:332-336). -/
def video_caption (preferred_format size_mode : String) : String :=
  "Последний кадр из твоего видео.\n\nФормат: " ++ py_upper preferred_format
    ++ "\nРазмер: " ++ describe_size size_mode

/-- Success caption of `cb_regenerate` (main.py:420-424). -/
def regen_caption (preferred_format size_mode : String) : String :=
  "Перегенерированный последний кадр.\n\nФормат: " ++ py_upper preferred_format
    ++ "\nРазмер: " ++ describe_size size_mode

/-- Alert shown by `cb_regenerate` when no video is stored (main.py:396-399). -/
def regen_nothing_text : String := "Нет сохранённого видео — пришли сначала ролик 🎥"

/-- Alert shown by `cb_regenerate` on failure (main.py:431). -/
def regen_fail_alert : String := "Не получилось перегенерировать 😔"

/-- Detail message of `cb_regenerate` on failure (main.py:432). -/
def regen_fail_text (e : ReqError) : String :=
  "Ошибка при перегенерации: " ++ req_err_str e

/-- Confirmation answer of `cb_regenerate` on success (main.py:428). -/
def regen_done_text : String := "Готово! Перегенерировал с текущими настройками ✅"

/-- Oracle for one request: transfer outcome, tool outcome, reply delivery,
per-path unlink success, and the two generated unique names. -/
structure HandlerEnv where
  download_ok : Bool
  run : RunResult
  reply_ok : Bool
  unlink_ok : String → Bool
  vid_uuid : String
  frame_uuid : String

/-- One iteration of the `finally` loop (main.py:343-348, 434-439): if the
path exists, try to unlink it, swallowing `OSError`. -/
def try_unlink (unlink_ok : String → Bool) (p : String) (disk : List String) :
    List String × List Effect :=
  if p ∈ disk then
    if unlink_ok p then (disk.filter (fun q => !(q == p)), [.unlink p true])
    else (disk, [.unlink p false])
  else (disk, [])

/-- The whole `finally` block: the loop over `(tmp_video_path, frame_path)`,
each of which is `None` until its assignment succeeded. -/
def cleanup2 (unlink_ok : String → Bool) (p1 p2 : Option String) (disk : List String) :
    List String × List Effect :=
  let d1e1 := match p1 with | some p => try_unlink unlink_ok p disk | none => (disk, [])
  let d2e2 := match p2 with | some p => try_unlink unlink_ok p d1e1.1 | none => (d1e1.1, [])
  (d2e2.1, d1e1.2 ++ d2e2.2)

/-- The `try/except/finally` body of `handle_video` (main.py:322-348):
download the event's media, extract the frame, reply with the photo; on any
exception reply with the failure text; in all cases run the cleanup loop over
`(tmp_video_path, frame_path)`.  Returns the final disk contents and the
effect trace of the body. -/
def handle_video_body (env : HandlerEnv) (msg : Message)
    (preferred_format size_mode : String) (disk : List String) :
    List String × List Effect :=
  match download_video_to_temp env.download_ok env.vid_uuid msg disk with
  | .error e =>
    let re := match e with
      | MediaError.noSupportedMedia => ReqError.noMedia
      | MediaError.downloadError => ReqError.downloadFailed
    let de := cleanup2 env.unlink_ok none none disk
    (de.1, [Effect.sendText (video_fail_text re)] ++ de.2)
  | .ok (vid_path, disk1, dlEffs) =>
    let output_path := frame_output_path env.frame_uuid (normalize_format preferred_format)
    let disk2 := if env.run.wrote then output_path :: disk1 else disk1
    let toolEffs := [Effect.runTool (extract_cmd vid_path output_path (py_lower size_mode))]
    match extract_last_frame env.run env.frame_uuid vid_path preferred_format size_mode
        extract_timeout_default with
    | .error e =>
      let de := cleanup2 env.unlink_ok (some vid_path) none disk2
      (de.1, dlEffs ++ toolEffs
        ++ [Effect.sendText (video_fail_text (ReqError.extract e))] ++ de.2)
    | .ok frame_path =>
      if env.reply_ok then
        let de := cleanup2 env.unlink_ok (some vid_path) (some frame_path) disk2
        (de.1, dlEffs ++ toolEffs
          ++ [Effect.sendPhoto frame_path (video_caption preferred_format size_mode)] ++ de.2)
      else
        let de := cleanup2 env.unlink_ok (some vid_path) (some frame_path) disk2
        (de.1, dlEffs ++ toolEffs
          ++ [Effect.sendText (video_fail_text ReqError.replyFailed)] ++ de.2)

/-- `handle_video` (main.py:300-348): read the preferences, record the new
last-media reference, best-effort forward to the operator sink, then run the
download → extract → reply → cleanup body. -/
def handle_video (env : HandlerEnv) (admin_configured : Bool) (msg : Message)
    (st : BotState) : BotState × List Effect :=
  let user_id := msg.from_user_id
  let preferred_format := get_user_format st.user_format_prefs user_id
  let size_mode := get_user_size st.user_size_prefs user_id
  let last_map :=
    match selected_media msg with
    | some f => dictSet st.user_last_file_id user_id f.file_id
    | none => st.user_last_file_id
  let adminEffs :=
    if admin_configured ∧ (selected_media msg).isSome then [Effect.adminForward] else []
  let body := handle_video_body env msg preferred_format size_mode st.disk
  (⟨st.user_format_prefs, st.user_size_prefs, last_map, body.1⟩,
    [Effect.chatAction] ++ adminEffs ++ body.2)

/-- The `try/except/finally` body of `cb_regenerate` (main.py:408-439):
download by the stored handle, extract, reply with the photo and the success
answer; on any exception answer with the failure alert plus a detail message;
in all cases run the same cleanup loop. -/
def cb_regen_body (env : HandlerEnv) (fid : String)
    (preferred_format size_mode : String) (disk : List String) :
    List String × List Effect :=
  match download_file_id_to_temp env.download_ok env.vid_uuid fid disk with
  | .error _ =>
    let de := cleanup2 env.unlink_ok none none disk
    (de.1, [Effect.cbAnswer regen_fail_alert true,
      Effect.sendText (regen_fail_text ReqError.downloadFailed)] ++ de.2)
  | .ok (vid_path, disk1, dlEffs) =>
    let output_path := frame_output_path env.frame_uuid (normalize_format preferred_format)
    let disk2 := if env.run.wrote then output_path :: disk1 else disk1
    let toolEffs := [Effect.runTool (extract_cmd vid_path output_path (py_lower size_mode))]
    match extract_last_frame env.run env.frame_uuid vid_path preferred_format size_mode
        extract_timeout_default with
    | .error e =>
      let de := cleanup2 env.unlink_ok (some vid_path) none disk2
      (de.1, dlEffs ++ toolEffs
        ++ [Effect.cbAnswer regen_fail_alert true,
          Effect.sendText (regen_fail_text (ReqError.extract e))] ++ de.2)
    | .ok frame_path =>
      if env.reply_ok then
        let de := cleanup2 env.unlink_ok (some vid_path) (some frame_path) disk2
        (de.1, dlEffs ++ toolEffs
          ++ [Effect.sendPhoto frame_path (regen_caption preferred_format size_mode),
            Effect.cbAnswer regen_done_text false] ++ de.2)
      else
        let de := cleanup2 env.unlink_ok (some vid_path) (some frame_path) disk2
        (de.1, dlEffs ++ toolEffs
          ++ [Effect.cbAnswer regen_fail_alert true,
            Effect.sendText (regen_fail_text ReqError.replyFailed)] ++ de.2)

/-- `cb_regenerate` (main.py:386-439): look up the stored handle; if it is
missing (or falsy, like Python's `if not file_id`), answer with the "nothing
to regenerate" alert and stop; otherwise run the fetch-by-handle → extract →
reply → cleanup body. -/
def cb_regenerate (env : HandlerEnv) (user_id : Int) (st : BotState) :
    BotState × List Effect :=
  match dictGetOpt st.user_last_file_id user_id with
  | none => (st, [Effect.cbAnswer regen_nothing_text true])
  | some fid =>
    if fid == "" then (st, [Effect.cbAnswer regen_nothing_text true])
    else
      let preferred_format := get_user_format st.user_format_prefs user_id
      let size_mode := get_user_size st.user_size_prefs user_id
      let body := cb_regen_body env fid preferred_format size_mode st.disk
      (⟨st.user_format_prefs, st.user_size_prefs, st.user_last_file_id, body.1⟩,
        [Effect.chatAction] ++ body.2)

/-! ## Supporting lemmas -/

/-- `String.append` concatenates the character data. -/
theorem str_data_append (s t : String) : (s ++ t).data = s.data ++ t.data := rfl

/-- Strings with equal character data are equal. -/
theorem str_data_inj {s t : String} (h : s.data = t.data) : s = t := by
  cases s; cases t; exact congrArg String.mk h

/-- A frame output path never collides with a video input path: they differ at
character index 5 (`l` versus `i`). -/
theorem frame_ne_input (fu fmt vu : String) :
    frame_output_path fu fmt ≠ input_tmp_path vu := by
  intro h
  have hd : (frame_output_path fu fmt).data = (input_tmp_path vu).data :=
    congrArg String.data h
  have h1 : (frame_output_path fu fmt).data
      = "/tmp/last_frame_".data ++ (fu.data ++ (".".data ++ fmt.data)) := by
    simp [frame_output_path, str_data_append]
  have h2 : (input_tmp_path vu).data
      = "/tmp/input_".data ++ (vu.data ++ ".mp4".data) := by
    simp [input_tmp_path, str_data_append]
  rw [h1, h2] at hd
  have h5 := congrArg (fun l => l[5]?) hd
  simp only [List.getElem?_append] at h5
  simp at h5

/-- Frame output paths with the same extension but different unique names are
different. -/
theorem frame_output_path_injective {u u' : String} (f : String) (h : u ≠ u') :
    frame_output_path u f ≠ frame_output_path u' f := by
  intro he
  apply h
  have hd := congrArg String.data he
  simp only [frame_output_path, str_data_append, List.append_assoc] at hd
  have hu := List.append_cancel_left hd
  exact str_data_inj (List.append_cancel_right hu)

/-- Video input paths with different unique names are different. -/
theorem input_tmp_path_injective {u u' : String} (h : u ≠ u') :
    input_tmp_path u ≠ input_tmp_path u' := by
  intro he
  apply h
  have hd := congrArg String.data he
  simp only [input_tmp_path, str_data_append, List.append_assoc] at hd
  have hu := List.append_cancel_left hd
  exact str_data_inj (List.append_cancel_right hu)

/-- Rendering the embedded AST of the `"1024"` filter reproduces the source
string of main.py:168 character for character. -/
theorem scale_filter_matches_source :
    scale_filter = "scale='if(gt(iw,ih),1024,-2)':'if(gt(ih,iw),1024,-2)'" := by decide

/-- The `"1024sq"` filter string of main.py:171-174. -/
theorem scale_crop_filter_matches_source :
    scale_crop_filter = "scale=1024:1024:force_original_aspect_ratio=increase,crop=1024:1024" := by
  decide

/-- Evenness and the (±1) proportionality bound for a `-2` dimension resolved
against a fixed 1024 dimension. -/
theorem near2_bounds (a w : Nat) (hw : 0 < w) :
    w * (nearRound a (w * 2) * 2) ≤ a + w ∧ a < w * (nearRound a (w * 2) * 2 + 1) := by
  unfold nearRound
  have h4 : 0 < 2 * (w * 2) := by omega
  have hdm := Nat.div_add_mod (2 * a + w * 2) (2 * (w * 2))
  have hmlt := Nat.mod_lt (2 * a + w * 2) h4
  set q := (2 * a + w * 2) / (2 * (w * 2)) with hq
  set r := (2 * a + w * 2) % (2 * (w * 2)) with hr
  have ht : 2 * (w * 2) * q = 4 * (w * q) := by ring
  rw [ht] at hdm
  have e1 : w * (q * 2) = 2 * (w * q) := by ring
  have e2 : w * (q * 2 + 1) = 2 * (w * q) + w := by ring
  rw [e1, e2]
  have hml : r < 4 * w := by omega
  generalize w * q = t at hdm ⊢
  omega

/-- Closed form of the `"1024"` transform for landscape input. -/
theorem scale_1024_dims_landscape {iw ih : Nat} (h : ih < iw) :
    scale_1024_dims iw ih = (1024, nearRound (1024 * ih) (iw * 2) * 2) := by
  have hgt : (ih : Int) < (iw : Int) := by exact_mod_cast h
  have hngt : ¬ ((iw : Int) < (ih : Int)) := by
    intro hx
    exact absurd (lt_trans hgt hx) (lt_irrefl _)
  simp [scale_1024_dims, w1024_expr, h1024_expr, evalS, resolve_scale_dims, hgt, hngt]
  omega

/-- Closed form of the `"1024"` transform for portrait input. -/
theorem scale_1024_dims_portrait {iw ih : Nat} (h : iw < ih) :
    scale_1024_dims iw ih = (nearRound (1024 * iw) (ih * 2) * 2, 1024) := by
  have hgt : (iw : Int) < (ih : Int) := by exact_mod_cast h
  have hngt : ¬ ((ih : Int) < (iw : Int)) := by
    intro hx
    exact absurd (lt_trans hgt hx) (lt_irrefl _)
  simp [scale_1024_dims, w1024_expr, h1024_expr, evalS, resolve_scale_dims, hgt, hngt]
  omega

/-- Reading back the format just written reduces to the normalization of the
raw input. -/
theorem get_set_format_eq (prefs : List (Int × String)) (u : Int) (raw : String) :
    get_user_format (set_user_format prefs u raw) u
      = (let f := py_lower raw
         let f := if f == "jpeg" then "jpg" else f
         if f == "png" || f == "jpg" || f == "webp" then f else "png") := by
  simp [get_user_format, set_user_format, dictGet, dictSet, List.find?]

/-- Reading back the size just written reduces to the normalization of the
raw input. -/
theorem get_set_size_eq (prefs : List (Int × String)) (u : Int) (raw : String) :
    get_user_size (set_user_size prefs u raw) u
      = (let s := py_lower raw
         if s == "orig" || s == "1024" || s == "1024sq" then s else "orig") := by
  simp [get_user_size, set_user_size, dictGet, dictSet, List.find?]

/-! ## Claims -/

/-- C3: for every user and raw input, `set_user_format` then `get_user_format`
yields a member of png/jpg/webp, `jpeg` in any case normalizes to `jpg`, and
any unrecognized string normalizes to `png`; `set_user_size` then
`get_user_size` yields a member of orig/1024/1024sq with unrecognized input
normalized to `orig`; and a user with no stored preference reads the defaults
`png` and `orig`. -/
theorem c3_preferences_normalization :
    (∀ prefs u raw,
      get_user_format (set_user_format prefs u raw) u ∈ (["png", "jpg", "webp"] : List String))
  ∧ (∀ prefs u raw, py_lower raw = "jpeg" →
      get_user_format (set_user_format prefs u raw) u = "jpg")
  ∧ (∀ prefs u raw, py_lower raw ∉ (["png", "jpg", "jpeg", "webp"] : List String) →
      get_user_format (set_user_format prefs u raw) u = "png")
  ∧ (∀ prefs u raw,
      get_user_size (set_user_size prefs u raw) u ∈ (["orig", "1024", "1024sq"] : List String))
  ∧ (∀ prefs u raw, py_lower raw ∉ (["orig", "1024", "1024sq"] : List String) →
      get_user_size (set_user_size prefs u raw) u = "orig")
  ∧ (∀ prefs u, prefs.find? (fun p => p.1 == u) = none → get_user_format prefs u = "png")
  ∧ (∀ prefs u, prefs.find? (fun p => p.1 == u) = none → get_user_size prefs u = "orig") := by
  refine ⟨?_, ?_, ?_, ?_, ?_, ?_, ?_⟩
  · intro prefs u raw
    rw [get_set_format_eq]
    dsimp only
    split_ifs <;> simp_all <;> tauto
  · intro prefs u raw hj
    rw [get_set_format_eq]
    simp [hj]
  · intro prefs u raw hnr
    simp only [List.mem_cons, List.mem_singleton, not_or] at hnr
    obtain ⟨h1, h2, h3, h4⟩ := hnr
    rw [get_set_format_eq]
    simp [h1, h2, h3, h4]
  · intro prefs u raw
    rw [get_set_size_eq]
    dsimp only
    split_ifs <;> simp_all <;> tauto
  · intro prefs u raw hnr
    simp only [List.mem_cons, List.mem_singleton, not_or] at hnr
    obtain ⟨h1, h2, h3⟩ := hnr
    rw [get_set_size_eq]
    simp [h1, h2, h3]
  · intro prefs u h
    simp [get_user_format, dictGet, h]
  · intro prefs u h
    simp [get_user_size, dictGet, h]

/-- C3 witness: a user writing `JPEG` then reading gets `jpg`; an unknown
format falls back to `png`; defaults are `png`/`orig`. -/
theorem c3_preferences_normalization_witness :
    get_user_format (set_user_format [] 7 "JPEG") 7 = "jpg"
    ∧ get_user_format (set_user_format [] 7 "bmp") 7 = "png"
    ∧ get_user_size (set_user_size [] 7 "2048") 7 = "orig"
    ∧ get_user_format [] 7 = "png" ∧ get_user_size [] 7 = "orig" := by
  refine ⟨?_, ?_, ?_, ?_, ?_⟩
  · exact c3_preferences_normalization.2.1 [] 7 "JPEG" (by decide)
  · exact c3_preferences_normalization.2.2.1 [] 7 "bmp" (by decide)
  · exact c3_preferences_normalization.2.2.2.2.1 [] 7 "2048" (by decide)
  · exact c3_preferences_normalization.2.2.2.2.2.1 [] 7 (by decide)
  · exact c3_preferences_normalization.2.2.2.2.2.2 [] 7 (by decide)

/-- C4: with `size="1024"`, a landscape input gets width fixed to 1024 and an
even, proportional (within one pixel) height; a portrait input gets height
fixed to 1024 and an even, proportional width.  The fixed axis follows from
comparing the input's width and height, not from a fixed choice. -/
theorem c4_scale_1024_orientation (iw ih : Nat) (hpos : 0 < ih) (hlt : ih < iw) :
    ((scale_1024_dims iw ih).1 = 1024
      ∧ (scale_1024_dims iw ih).2 % 2 = 0
      ∧ iw * (scale_1024_dims iw ih).2 ≤ 1024 * ih + iw
      ∧ 1024 * ih < iw * ((scale_1024_dims iw ih).2 + 1))
  ∧ ((scale_1024_dims ih iw).2 = 1024
      ∧ (scale_1024_dims ih iw).1 % 2 = 0
      ∧ iw * (scale_1024_dims ih iw).1 ≤ 1024 * ih + iw
      ∧ 1024 * ih < iw * ((scale_1024_dims ih iw).1 + 1)) := by
  have hw : 0 < iw := lt_trans hpos hlt
  have hl := scale_1024_dims_landscape hlt
  have hp := scale_1024_dims_portrait hlt
  have hb := near2_bounds (1024 * ih) iw hw
  constructor
  · rw [hl]
    exact ⟨rfl, by simp [Nat.mul_mod_left], hb.1, hb.2⟩
  · rw [hp]
    exact ⟨rfl, by simp [Nat.mul_mod_left], hb.1, hb.2⟩

/-- C4 witness: a 1920×1080 landscape input is scaled to 1024×576; the same
video rotated (1080×1920) is scaled to 576×1024. -/
theorem c4_scale_1024_orientation_witness :
    ((scale_1024_dims 1920 1080).1 = 1024
      ∧ (scale_1024_dims 1920 1080).2 % 2 = 0
      ∧ 1920 * (scale_1024_dims 1920 1080).2 ≤ 1024 * 1080 + 1920
      ∧ 1024 * 1080 < 1920 * ((scale_1024_dims 1920 1080).2 + 1))
  ∧ ((scale_1024_dims 1080 1920).2 = 1024
      ∧ (scale_1024_dims 1080 1920).1 % 2 = 0
      ∧ 1920 * (scale_1024_dims 1080 1920).1 ≤ 1024 * 1080 + 1920
      ∧ 1024 * 1080 < 1920 * ((scale_1024_dims 1080 1920).1 + 1)) :=
  c4_scale_1024_orientation 1920 1080 (by decide) (by decide)

/-- C5: with `size="1024sq"` the cover-fit scale makes both dimensions at
least 1024 and the centered crop then yields exactly 1024×1024 for every
input; with `size="orig"` no `-vf` transform is present in the command. -/
theorem c5_square_crop_and_orig (iw ih : Nat) :
    scale_1024sq_dims iw ih
      = some ((1024, 1024),
          (((cover_scale_dims iw ih).1 - 1024) / 2, ((cover_scale_dims iw ih).2 - 1024) / 2))
  ∧ 1024 ≤ (cover_scale_dims iw ih).1 ∧ 1024 ≤ (cover_scale_dims iw ih).2
  ∧ ∀ inp out : String, extract_cmd inp out "orig"
      = ["ffmpeg", "-y", "-sseof", "-0.1", "-i", inp, "-vframes", "1", out] := by
  have hw : 1024 ≤ (cover_scale_dims iw ih).1 := le_max_right _ _
  have hh : 1024 ≤ (cover_scale_dims iw ih).2 := le_max_right _ _
  refine ⟨?_, hw, hh, ?_⟩
  · simp [scale_1024sq_dims, crop_dims, hw, hh]
  · intro inp out
    have h1 : ("orig" == "1024") = false := by decide
    have h2 : ("orig" == "1024sq") = false := by decide
    simp [extract_cmd, h1, h2]

/-- C10: for a square input the two scale expressions both evaluate to the
`-2` placeholder, no dimension is fixed to 1024, and the resolved output is
the unchanged input size. -/
theorem c10_square_no_1024 (n : Nat) :
    evalS w1024_expr n n = -2 ∧ evalS h1024_expr n n = -2
  ∧ scale_1024_dims n n = (n, n)
  ∧ (n ≠ 1024 → (scale_1024_dims n n).1 ≠ 1024 ∧ (scale_1024_dims n n).2 ≠ 1024) := by
  have hngt : ¬ ((n : Int) < (n : Int)) := lt_irrefl _
  have he1 : evalS w1024_expr n n = -2 := by simp [w1024_expr, evalS]
  have he2 : evalS h1024_expr n n = -2 := by simp [h1024_expr, evalS]
  have hd : scale_1024_dims n n = (n, n) := by
    have hnl : ¬ ((n : Int) < 0) := by omega
    simp [scale_1024_dims, he1, he2, resolve_scale_dims, hnl]
  refine ⟨he1, he2, hd, ?_⟩
  intro hne
  rw [hd]
  exact ⟨hne, hne⟩

/-- C10 witness: a 512×512 square input keeps its size; nothing becomes
1024. -/
theorem c10_square_no_1024_witness :
    scale_1024_dims 512 512 = (512, 512)
    ∧ (scale_1024_dims 512 512).1 ≠ 1024 ∧ (scale_1024_dims 512 512).2 ≠ 1024 :=
  ⟨(c10_square_no_1024 512).2.2.1, (c10_square_no_1024 512).2.2.2 (by decide)⟩

/-- C2 counterexample: with exit code 1 and the undecodable stderr byte 0xFF,
the error text produced by the code (`errors='ignore'`) is empty, while the
claimed replacement decoding would produce U+FFFD; so the failure does not
carry the stderr text with undecodable bytes replaced. -/
theorem c2_counterexample :
    extract_last_frame (.completed 1 [255] true) "u" "/tmp/v.mp4" "png" "orig" 60
      = .error (.failedErr 1 (python_decode_ignore [255]))
  ∧ python_decode_ignore [255] = ""
  ∧ python_decode_replace [255] = "�"
  ∧ python_decode_ignore [255] ≠ python_decode_replace [255] := by
  refine ⟨rfl, rfl, rfl, by decide⟩

/-- C2 (amended: the stderr text is decoded permissively with undecodable
bytes dropped — `errors='ignore'` — rather than replaced): timeout yields the
timeout error carrying the bound; nonzero exit or missing output yields the
failure error carrying the exit code and the ignore-decoded stderr; the two
failure kinds are distinct; otherwise the output path is returned and the
file at it exists. -/
theorem c2_extract_classification (run : RunResult) (u inp fmt size : String) (t : Nat) :
    (∀ w, run = .timedOut w →
      extract_last_frame run u inp fmt size t = .error (.timeoutErr t))
  ∧ (∀ code stderr w, run = .completed code stderr w → code ≠ 0 ∨ w = false →
      extract_last_frame run u inp fmt size t
        = .error (.failedErr code (python_decode_ignore stderr)))
  ∧ (∀ code stderr, run = .completed code stderr true → code = 0 →
      extract_last_frame run u inp fmt size t
          = .ok (frame_output_path u (normalize_format fmt))
        ∧ run.wrote = true)
  ∧ (∀ t' c s, ExtractError.timeoutErr t' ≠ ExtractError.failedErr c s) := by
  refine ⟨?_, ?_, ?_, ?_⟩
  · rintro w rfl
    rfl
  · rintro code stderr w rfl h
    simp [extract_last_frame, h]
  · rintro code stderr rfl h
    subst h
    refine ⟨by simp [extract_last_frame], rfl⟩
  · intro t' c s hne
    cases hne

/-- C2 witness: a timed-out run fails with the timeout error carrying 60; a
clean run returns the normalized-format output path. -/
theorem c2_extract_classification_witness :
    extract_last_frame (.timedOut false) "u" "i" "png" "orig" 60 = .error (.timeoutErr 60)
  ∧ extract_last_frame (.completed 0 [] true) "u" "i" "png" "orig" 60
      = .ok (frame_output_path "u" (normalize_format "png")) := by
  constructor
  · exact (c2_extract_classification (.timedOut false) "u" "i" "png" "orig" 60).1 false rfl
  · exact ((c2_extract_classification (.completed 0 [] true) "u" "i" "png" "orig" 60).2.2.1
      0 [] rfl rfl).1

/-- C6: the built command seeks 0.1 s before end-of-stream (`-sseof -0.1`),
limits output to one frame (`-vframes 1`), ends with the output path, whose
extension is the normalized format and whose unique name makes distinct
invocations write distinct paths; the timeout parameter defaults to 60. -/
theorem c6_command_shape (inp out size u u' fmt : String) :
    List.IsInfix ["-sseof", "-0.1"] (extract_cmd inp out size)
  ∧ List.IsInfix ["-vframes", "1"] (extract_cmd inp out size)
  ∧ (extract_cmd inp out size).getLast? = some out
  ∧ (extract_cmd inp out size).head? = some "ffmpeg"
  ∧ (frame_output_path u (normalize_format fmt)).data
      = ("/tmp/last_frame_" ++ u).data ++ ('.' :: (normalize_format fmt).data)
  ∧ normalize_format fmt ∈ (["png", "jpg", "webp"] : List String)
  ∧ (u ≠ u' → frame_output_path u fmt ≠ frame_output_path u' fmt)
  ∧ extract_timeout_default = 60
  ∧ (∀ w, extract_last_frame (.timedOut w) u inp fmt size extract_timeout_default
      = .error (.timeoutErr 60)) := by
  refine ⟨?_, ?_, ?_, ?_, ?_, ?_, ?_, rfl, ?_⟩
  · exact ⟨["ffmpeg", "-y"],
      ["-i", inp] ++ (if size == "1024" then ["-vf", scale_filter]
        else if size == "1024sq" then ["-vf", scale_crop_filter]
        else []) ++ ["-vframes", "1", out], by simp [extract_cmd]⟩
  · exact ⟨["ffmpeg", "-y", "-sseof", "-0.1", "-i", inp]
      ++ (if size == "1024" then ["-vf", scale_filter]
        else if size == "1024sq" then ["-vf", scale_crop_filter]
        else []), [out], by simp [extract_cmd]⟩
  · unfold extract_cmd
    split_ifs <;> simp
  · unfold extract_cmd
    rfl
  · simp [frame_output_path, str_data_append]
  · unfold normalize_format
    dsimp only
    split_ifs <;> simp_all <;> tauto
  · exact fun h => frame_output_path_injective fmt h
  · intro w
    rfl

/-- C6 witness: distinct unique names give distinct output paths, and the
output path is the command's last argument. -/
theorem c6_command_shape_witness :
    frame_output_path "a" "png" ≠ frame_output_path "b" "png"
  ∧ (extract_cmd "/tmp/in.mp4" "/tmp/out.png" "orig").getLast? = some "/tmp/out.png" :=
  ⟨(c6_command_shape "/tmp/in.mp4" "/tmp/out.png" "orig" "a" "b" "png").2.2.2.2.2.2.1
      (by decide),
    (c6_command_shape "/tmp/in.mp4" "/tmp/out.png" "orig" "a" "b" "png").2.2.1⟩

/-- C8: `download_video_to_temp` fails with the no-supported-media error
exactly when the event carries none of video / video-note / animation;
otherwise (with the transfer succeeding) it downloads the selected media to
the uniquely named `.mp4` temp path and returns that path; the selection
picks whichever of the three kinds is present. -/
theorem c8_download_media (dl : Bool) (u u' : String) (m : Message) (disk : List String) :
    (download_video_to_temp dl u m disk = .error .noSupportedMedia
        ↔ m.video = none ∧ m.video_note = none ∧ m.animation = none)
  ∧ (∀ f, selected_media m = some f → dl = true →
      download_video_to_temp dl u m disk
        = .ok (input_tmp_path u, input_tmp_path u :: disk,
            [Effect.downloadMedia f.file_id (input_tmp_path u)]))
  ∧ (∀ f, m.video = some f → selected_media m = some f)
  ∧ (∀ f, m.video = none → m.video_note = some f → selected_media m = some f)
  ∧ (∀ f, m.video = none → m.video_note = none → m.animation = some f →
      selected_media m = some f)
  ∧ (input_tmp_path u).data = ("/tmp/input_" ++ u).data ++ ('.' :: "mp4".data)
  ∧ (u ≠ u' → input_tmp_path u ≠ input_tmp_path u') := by
  refine ⟨?_, ?_, ?_, ?_, ?_, ?_, ?_⟩
  · rcases m with ⟨uid, v, vn, a⟩
    cases v <;> cases vn <;> cases a <;>
      cases dl <;> simp [download_video_to_temp, selected_media]
  · intro f hf hdl
    subst hdl
    simp [download_video_to_temp, hf]
  · intro f hf
    simp [selected_media, hf]
  · intro f hv hf
    simp [selected_media, hv, hf]
  · intro f hv hvn hf
    simp [selected_media, hv, hvn, hf]
  · simp [input_tmp_path, str_data_append]
  · exact fun h => input_tmp_path_injective h

/-- C8 witness: an event with only a video-note downloads it to the `.mp4`
temp path; an event with no media fails with the no-supported-media error. -/
theorem c8_download_media_witness :
    download_video_to_temp true "u1" ⟨5, none, some ⟨"fid1"⟩, none⟩ []
      = .ok (input_tmp_path "u1", [input_tmp_path "u1"],
          [Effect.downloadMedia "fid1" (input_tmp_path "u1")])
  ∧ download_video_to_temp true "u1" ⟨5, none, none, none⟩ []
      = .error .noSupportedMedia :=
  ⟨(c8_download_media true "u1" "u2" ⟨5, none, some ⟨"fid1"⟩, none⟩ []).2.1
      ⟨"fid1"⟩ rfl rfl,
    (c8_download_media true "u1" "u2" ⟨5, none, none, none⟩ []).1.mpr ⟨rfl, rfl, rfl⟩⟩

/-- C9: `handle_video` records the event's file id as the user's last-media
reference unconditionally, so after the handler completes — whatever the
download, extraction or reply oracle did — the stored reference is the new
submission's file id. -/
theorem c9_last_ref_overwrite (env : HandlerEnv) (cfg : Bool) (msg : Message)
    (st : BotState) (f : TgFile) (hm : selected_media msg = some f) :
    dictGetOpt (handle_video env cfg msg st).1.user_last_file_id msg.from_user_id
      = some f.file_id := by
  simp [handle_video, hm, dictGetOpt, dictSet, List.find?]

/-- C9 witness: with a failing download oracle, the stored reference is still
the new submission's file id after the handler returns. -/
theorem c9_last_ref_overwrite_witness :
    dictGetOpt
      (handle_video ⟨false, .timedOut false, false, fun _ => false, "u1", "u2"⟩ false
        ⟨3, some ⟨"abc"⟩, none, none⟩ ⟨[], [], [], []⟩).1.user_last_file_id 3
      = some "abc" :=
  c9_last_ref_overwrite ⟨false, .timedOut false, false, fun _ => false, "u1", "u2"⟩ false
    ⟨3, some ⟨"abc"⟩, none, none⟩ ⟨[], [], [], []⟩ ⟨"abc"⟩ rfl

/-- Filtering away a path that is not present leaves the list unchanged. -/
theorem filter_ne_of_not_mem {p : String} {d : List String} (h : p ∉ d) :
    d.filter (fun q => !(q == p)) = d := by
  apply List.filter_eq_self.mpr
  intro a ha
  have hne : a ≠ p := fun he => h (he ▸ ha)
  simp [hne]

/-- Unlinking a fresh path removed from a two-element cleanup: deleting the
tracked video then the tracked frame restores the pre-request disk. -/
theorem cleanup2_clean {unl : String → Bool} {vid frame : String} {disk : List String}
    (hunl_v : unl vid = true) (hunl_f : unl frame = true)
    (hne : frame ≠ vid) (hv : vid ∉ disk) (hf : frame ∉ disk) :
    (cleanup2 unl (some vid) (some frame) (frame :: vid :: disk)).1 = disk := by
  have h1 : (frame == vid) = false := beq_eq_false_iff_ne.mpr hne
  simp [cleanup2, try_unlink, hunl_v, hunl_f, List.filter_cons, h1,
    filter_ne_of_not_mem hv, filter_ne_of_not_mem hf]

/-- Cleanup with only the video tracked restores the pre-request disk. -/
theorem cleanup2_vid_only {unl : String → Bool} {vid : String} {disk : List String}
    (hunl : unl vid = true) (hv : vid ∉ disk) :
    (cleanup2 unl (some vid) none (vid :: disk)).1 = disk := by
  simp [cleanup2, try_unlink, hunl, List.filter_cons, filter_ne_of_not_mem hv]

/-- Disk restoration for the `handle_video` request body: under a tool that
leaves no partial output on failure, successful unlinks and fresh transient
names, the body ends with the disk it started from. -/
theorem handle_video_body_disk (env : HandlerEnv) (msg : Message) (pf sm : String)
    (disk : List String)
    (hcf : env.run.cleanFailure)
    (hunl : ∀ p, env.unlink_ok p = true)
    (hv : input_tmp_path env.vid_uuid ∉ disk)
    (hf : ∀ f, frame_output_path env.frame_uuid f ∉ disk) :
    (handle_video_body env msg pf sm disk).1 = disk := by
  cases hsel : selected_media msg with
  | none =>
    cases hdl : env.download_ok <;>
      simp [handle_video_body, download_video_to_temp, hsel, hdl, cleanup2]
  | some f =>
    cases hdl : env.download_ok with
    | false => simp [handle_video_body, download_video_to_temp, hsel, hdl, cleanup2]
    | true =>
      cases hrun : env.run with
      | timedOut w =>
        rw [hrun] at hcf
        have hw : w = false := hcf
        subst hw
        simp [handle_video_body, download_video_to_temp, hsel, hdl, hrun,
          extract_last_frame, RunResult.wrote, cleanup2, try_unlink, hunl,
          List.filter_cons, filter_ne_of_not_mem hv]
      | completed c s w =>
        rw [hrun] at hcf
        by_cases hfail : c ≠ 0 ∨ w = false
        · have hw : w = false := by
            cases w
            · rfl
            · have hc : c = 0 := hcf rfl
              rcases hfail with h | h
              · exact absurd hc h
              · cases h
          subst hw
          simp [handle_video_body, download_video_to_temp, hsel, hdl, hrun,
            extract_last_frame, RunResult.wrote, cleanup2, try_unlink, hunl,
            List.filter_cons, filter_ne_of_not_mem hv]
        · have hc0 : c = 0 := by
            by_contra hc
            exact hfail (Or.inl hc)
          have hw : w = true := by
            cases w
            · exact absurd (Or.inr rfl) hfail
            · rfl
          subst hc0; subst hw
          have hfr := frame_ne_input env.frame_uuid (normalize_format pf) env.vid_uuid
          have hvb : (frame_output_path env.frame_uuid (normalize_format pf)
              == input_tmp_path env.vid_uuid) = false := beq_eq_false_iff_ne.mpr hfr
          cases hrep : env.reply_ok <;>
            simp [handle_video_body, download_video_to_temp, hsel, hdl, hrun, hrep,
              extract_last_frame, RunResult.wrote, cleanup2, try_unlink, hunl,
              List.filter_cons, hvb, filter_ne_of_not_mem hv,
              filter_ne_of_not_mem (hf (normalize_format pf))]

/-- Disk restoration for the `cb_regenerate` request body, under the same
conditions. -/
theorem cb_regen_body_disk (env : HandlerEnv) (fid pf sm : String)
    (disk : List String)
    (hcf : env.run.cleanFailure)
    (hunl : ∀ p, env.unlink_ok p = true)
    (hv : input_tmp_path env.vid_uuid ∉ disk)
    (hf : ∀ f, frame_output_path env.frame_uuid f ∉ disk) :
    (cb_regen_body env fid pf sm disk).1 = disk := by
  cases hdl : env.download_ok with
  | false => simp [cb_regen_body, download_file_id_to_temp, hdl, cleanup2]
  | true =>
    cases hrun : env.run with
    | timedOut w =>
      rw [hrun] at hcf
      have hw : w = false := hcf
      subst hw
      simp [cb_regen_body, download_file_id_to_temp, hdl, hrun, extract_last_frame,
        RunResult.wrote, cleanup2, try_unlink, hunl, List.filter_cons,
        filter_ne_of_not_mem hv]
    | completed c s w =>
      rw [hrun] at hcf
      by_cases hfail : c ≠ 0 ∨ w = false
      · have hw : w = false := by
          cases w
          · rfl
          · have hc : c = 0 := hcf rfl
            rcases hfail with h | h
            · exact absurd hc h
            · cases h
        subst hw
        simp [cb_regen_body, download_file_id_to_temp, hdl, hrun, extract_last_frame,
          RunResult.wrote, cleanup2, try_unlink, hunl, List.filter_cons,
          filter_ne_of_not_mem hv]
      · have hc0 : c = 0 := by
          by_contra hc
          exact hfail (Or.inl hc)
        have hw : w = true := by
          cases w
          · exact absurd (Or.inr rfl) hfail
          · rfl
        subst hc0; subst hw
        have hfr := frame_ne_input env.frame_uuid (normalize_format pf) env.vid_uuid
        have hvb : (frame_output_path env.frame_uuid (normalize_format pf)
            == input_tmp_path env.vid_uuid) = false := beq_eq_false_iff_ne.mpr hfr
        cases hrep : env.reply_ok <;>
          simp [cb_regen_body, download_file_id_to_temp, hdl, hrun, hrep,
            extract_last_frame, RunResult.wrote, cleanup2, try_unlink, hunl,
            List.filter_cons, hvb, filter_ne_of_not_mem hv,
            filter_ne_of_not_mem (hf (normalize_format pf))]

/-- The regenerate body and the new-media body perform the same filesystem
work: same final disk, same filesystem-operation trace, same photo path, for
a message carrying the same file id. -/
theorem bodies_match (env : HandlerEnv) (u : Int) (fid pf sm : String)
    (disk : List String) :
    (cb_regen_body env fid pf sm disk).1
        = (handle_video_body env ⟨u, some ⟨fid⟩, none, none⟩ pf sm disk).1
  ∧ (cb_regen_body env fid pf sm disk).2.filter Effect.isFsOp
        = (handle_video_body env ⟨u, some ⟨fid⟩, none, none⟩ pf sm disk).2.filter
            Effect.isFsOp
  ∧ photoPaths (cb_regen_body env fid pf sm disk).2
        = photoPaths (handle_video_body env ⟨u, some ⟨fid⟩, none, none⟩ pf sm disk).2 := by
  rcases env with ⟨dl, run, rep, unl, vu, fu⟩
  have hsel : selected_media ⟨u, some ⟨fid⟩, none, none⟩ = some ⟨fid⟩ := rfl
  cases dl with
  | false =>
    simp [cb_regen_body, handle_video_body, download_video_to_temp,
      download_file_id_to_temp, hsel, cleanup2, Effect.isFsOp, photoPaths]
  | true =>
    cases run with
    | timedOut w =>
      simp [cb_regen_body, handle_video_body, download_video_to_temp,
        download_file_id_to_temp, hsel, extract_last_frame, Effect.isFsOp, photoPaths,
        List.filter_append, List.filterMap_append]
    | completed c s w =>
      by_cases hfail : c ≠ 0 ∨ w = false
      · simp [cb_regen_body, handle_video_body, download_video_to_temp,
          download_file_id_to_temp, hsel, extract_last_frame, hfail, Effect.isFsOp,
          photoPaths, List.filter_append, List.filterMap_append]
      · cases rep <;>
          simp [cb_regen_body, handle_video_body, download_video_to_temp,
            download_file_id_to_temp, hsel, extract_last_frame, hfail, Effect.isFsOp,
            photoPaths, List.filter_append, List.filterMap_append]

/-- C7: with no stored last-media reference, `cb_regenerate` only produces the
"nothing to regenerate" alert — the state (including the disk) is unchanged
and no other effect happens; with a stored reference, it performs the same
fetch-by-handle / extract / reply / cleanup filesystem work as the new-media
handler for that file id. -/
theorem c7_regenerate (env : HandlerEnv) (u : Int) (st : BotState) :
    (dictGetOpt st.user_last_file_id u = none →
      cb_regenerate env u st = (st, [Effect.cbAnswer regen_nothing_text true]))
  ∧ (∀ fid, dictGetOpt st.user_last_file_id u = some fid → fid ≠ "" → ∀ cfg,
      (cb_regenerate env u st).1.disk
          = (handle_video env cfg ⟨u, some ⟨fid⟩, none, none⟩ st).1.disk
        ∧ (cb_regenerate env u st).2.filter Effect.isFsOp
          = (handle_video env cfg ⟨u, some ⟨fid⟩, none, none⟩ st).2.filter Effect.isFsOp
        ∧ photoPaths (cb_regenerate env u st).2
          = photoPaths (handle_video env cfg ⟨u, some ⟨fid⟩, none, none⟩ st).2) := by
  constructor
  · intro h
    simp [cb_regenerate, h]
  · intro fid hs hne cfg
    have hbeq : (fid == "") = false := beq_eq_false_iff_ne.mpr hne
    have hsel : selected_media ⟨u, some ⟨fid⟩, none, none⟩ = some ⟨fid⟩ := rfl
    have hb := bodies_match env u fid (get_user_format st.user_format_prefs u)
      (get_user_size st.user_size_prefs u) st.disk
    refine ⟨?_, ?_, ?_⟩
    · simpa [cb_regenerate, handle_video, hs, hbeq, hsel] using hb.1
    · simpa [cb_regenerate, handle_video, hs, hbeq, hsel, List.filter_append,
        Effect.isFsOp, apply_ite (List.filter Effect.isFsOp)] using hb.2.1
    · simpa [cb_regenerate, handle_video, hs, hbeq, hsel, photoPaths,
        List.filterMap_append, apply_ite (List.filterMap _)] using hb.2.2

/-- C7 witness: with an empty store, regenerate answers "nothing to
regenerate" and changes nothing. -/
theorem c7_regenerate_witness :
    cb_regenerate ⟨true, .completed 0 [] true, true, fun _ => true, "u1", "u2"⟩ 9
        ⟨[], [], [], []⟩
      = (⟨[], [], [], []⟩, [Effect.cbAnswer regen_nothing_text true]) :=
  (c7_regenerate ⟨true, .completed 0 [] true, true, fun _ => true, "u1", "u2"⟩ 9
    ⟨[], [], [], []⟩).1 rfl

/-- C1 counterexample: the tool exits nonzero (code 1) yet leaves an output
file; extraction raises before `frame_path` is assigned, so the `finally`
block deletes only the video file and the frame file created by the request
remains on disk after the handler returns — the claim's "no transient file
created by that request remains" fails on this exit path. -/
theorem c1_counterexample :
    frame_output_path "u2" "png"
        ∈ (handle_video ⟨true, .completed 1 [] true, true, fun _ => true, "u1", "u2"⟩ false
            ⟨7, some ⟨"fid"⟩, none, none⟩ ⟨[], [], [], []⟩).1.disk
  ∧ (handle_video ⟨true, .completed 1 [] true, true, fun _ => true, "u1", "u2"⟩ false
        ⟨7, some ⟨"fid"⟩, none, none⟩ ⟨[], [], [], []⟩).1.disk
      = [frame_output_path "u2" "png"] := by
  constructor
  · decide
  · decide

/-- C1 (amended: on every exit path both tracked transient files — the
downloaded video always, the frame file once extraction succeeded — are
deleted if they exist, and a deletion failure is swallowed, the loop
continuing with the other file; hence, provided a failed or timed-out tool
run leaves no partial output file and the deletions succeed, no transient
file created by the request remains on disk.  A partial frame file written by
a failed tool run is untracked and can remain, as the counterexample shows). -/
theorem c1_cleanup_amended :
    (∀ env cfg msg st, env.run.cleanFailure → (∀ p, env.unlink_ok p = true) →
      input_tmp_path env.vid_uuid ∉ st.disk →
      (∀ f, frame_output_path env.frame_uuid f ∉ st.disk) →
      (handle_video env cfg msg st).1.disk = st.disk)
  ∧ (∀ env u st, env.run.cleanFailure → (∀ p, env.unlink_ok p = true) →
      input_tmp_path env.vid_uuid ∉ st.disk →
      (∀ f, frame_output_path env.frame_uuid f ∉ st.disk) →
      (cb_regenerate env u st).1.disk = st.disk)
  ∧ (∀ env cfg msg st f s, selected_media msg = some f →
      env.download_ok = true → env.run = RunResult.completed 0 s true →
      env.reply_ok = true →
      env.unlink_ok (input_tmp_path env.vid_uuid) = false →
      (∀ g, env.unlink_ok (frame_output_path env.frame_uuid g) = true) →
      input_tmp_path env.vid_uuid ∉ st.disk →
      (∀ g, frame_output_path env.frame_uuid g ∉ st.disk) →
      frame_output_path env.frame_uuid
          (normalize_format (get_user_format st.user_format_prefs msg.from_user_id))
          ∉ (handle_video env cfg msg st).1.disk
        ∧ input_tmp_path env.vid_uuid ∈ (handle_video env cfg msg st).1.disk) := by
  refine ⟨?_, ?_, ?_⟩
  · intro env cfg msg st hcf hunl hv hf
    have hb := handle_video_body_disk env msg (get_user_format st.user_format_prefs msg.from_user_id)
      (get_user_size st.user_size_prefs msg.from_user_id) st.disk hcf hunl hv hf
    simpa [handle_video] using hb
  · intro env u st hcf hunl hv hf
    cases hs : dictGetOpt st.user_last_file_id u with
    | none => simp [cb_regenerate, hs]
    | some fid =>
      by_cases hfe : fid == ""
      · simp [cb_regenerate, hs, hfe]
      · have hb := cb_regen_body_disk env fid (get_user_format st.user_format_prefs u)
          (get_user_size st.user_size_prefs u) st.disk hcf hunl hv hf
        simp only [Bool.not_eq_true] at hfe
        simpa [cb_regenerate, hs, hfe] using hb
  · intro env cfg msg st f s hsel hdl hrun hrep hulv hulf hv hf
    set fr := normalize_format (get_user_format st.user_format_prefs msg.from_user_id)
      with hfr_def
    have hfr := frame_ne_input env.frame_uuid fr env.vid_uuid
    have hvb : (frame_output_path env.frame_uuid fr == input_tmp_path env.vid_uuid)
        = false := beq_eq_false_iff_ne.mpr hfr
    have hbv : (input_tmp_path env.vid_uuid == frame_output_path env.frame_uuid fr)
        = false := beq_eq_false_iff_ne.mpr (Ne.symm hfr)
    constructor
    · simp [handle_video, handle_video_body, download_video_to_temp, hsel, hdl, hrun,
        hrep, extract_last_frame, RunResult.wrote, cleanup2, try_unlink, hulv, hulf,
        List.filter_cons, hvb, hbv, filter_ne_of_not_mem (hf fr), hfr, hf fr]
    · simp [handle_video, handle_video_body, download_video_to_temp, hsel, hdl, hrun,
        hrep, extract_last_frame, RunResult.wrote, cleanup2, try_unlink, hulv, hulf,
        List.filter_cons, hvb, hbv, filter_ne_of_not_mem (hf fr)]

/-- C1 witness for the amended theorem: a fully successful request leaves the
(initially empty) disk empty. -/
theorem c1_cleanup_amended_witness :
    (handle_video ⟨true, .completed 0 [] true, true, fun _ => true, "u1", "u2"⟩ false
        ⟨7, some ⟨"fid"⟩, none, none⟩ ⟨[], [], [], []⟩).1.disk = [] :=
  c1_cleanup_amended.1 ⟨true, .completed 0 [] true, true, fun _ => true, "u1", "u2"⟩ false
    ⟨7, some ⟨"fid"⟩, none, none⟩ ⟨[], [], [], []⟩ (fun _ => rfl) (fun _ => rfl)
    (List.not_mem_nil _) (fun f => List.not_mem_nil _)

end TG
